import Mathlib

/-!
Verification development for the session aggregation and derived-signal engine
of the vision service (src/backend/vision-service/main.py).

The Python floats are modelled as real numbers.  Bounded deques
(collections.deque with maxlen) are modelled as lists together with the
dequeAppend operation, which appends on the right and evicts from the left
when the capacity is exceeded.  Stateful methods on SessionState and
VisionProcessor are modelled as explicit state-passing functions.
-/

noncomputable section

namespace ImperfectBreath

/-- Appending to a bounded deque of capacity cap: the value is appended on the
right; if the length now exceeds the capacity, the oldest (leftmost) entries
are dropped.  Models collections.deque(maxlen = cap) append. -/
def dequeAppend (cap : ℕ) (xs : List α) (v : α) : List α :=
  let ys := xs ++ [v]
  if cap < ys.length then ys.drop (ys.length - cap) else ys

/-- The suffix of the last n elements of a list.  Models the Python slice
xs[-n:] as used on list(self.breathing_history)[-20:]. -/
def lastN (n : ℕ) (xs : List α) : List α :=
  xs.drop (xs.length - n)

/-- A normalized facial landmark point (class FaceLandmark, main.py lines
208-211). -/
structure FaceLandmark where
  x : ℝ
  y : ℝ
  z : ℝ

/-- One temporal snapshot entry (main.py lines 290-294): the dictionary with
keys timestamp, stillness and confidence appended to temporal_snapshots. -/
structure TemporalSnapshot where
  timestamp : ℝ
  stillness : ℝ
  confidence : ℝ

/-- Per-session mutable state (dataclass SessionState, main.py lines 243-272,
including the fields initialised in post-init).  The five bounded rolling
histories carry their capacities at each append site: landmark history 30,
breathing history 100, movement history 50, confidence history 50, posture
history 50. -/
structure SessionState where
  session_id : String
  last_landmarks : Option (List FaceLandmark)
  landmark_history : List (List FaceLandmark)
  breathing_history : List ℝ
  movement_history : List ℝ
  confidence_history : List ℝ
  posture_history : List ℝ
  created_at : ℝ
  phase_movement_map : List (String × List ℝ)
  temporal_snapshots : List TemporalSnapshot

/-- A freshly created session: SessionState(session_id = sid) followed by its
post-init (main.py lines 256-272).  All histories start empty, created_at is
set to the current time, the phase map and temporal snapshots start empty. -/
def freshSession (sid : String) (now : ℝ) : SessionState :=
  { session_id := sid
    last_landmarks := none
    landmark_history := []
    breathing_history := []
    movement_history := []
    confidence_history := []
    posture_history := []
    created_at := now
    phase_movement_map := []
    temporal_snapshots := [] }

/-- Appending a movement value under a phase key in phase_movement_map
(main.py lines 283-286): create the entry if absent, then append. -/
def phaseMapAppend (m : List (String × List ℝ)) (p : String) (v : ℝ) :
    List (String × List ℝ) :=
  if m.any (fun kv => kv.1 == p) then
    m.map (fun kv => if kv.1 == p then (kv.1, kv.2 ++ [v]) else kv)
  else m ++ [(p, [v])]

/-- SessionState.add_frame_metrics (main.py lines 274-294): appends the frame
scalars to the bounded histories (breathing only when present), records the
movement under the declared phase when one is given (Python treats the empty
string as no phase), and appends one temporal snapshot whenever the
post-append movement history length is a multiple of 30. -/
def SessionState.add_frame_metrics (s : SessionState) (confidence posture movement : ℝ)
    (breathing : Option ℝ) (phase : Option String) (now : ℝ) : SessionState :=
  let s1 : SessionState := { s with
    confidence_history := dequeAppend 50 s.confidence_history confidence
    posture_history := dequeAppend 50 s.posture_history posture
    movement_history := dequeAppend 50 s.movement_history movement }
  let s2 : SessionState :=
    match breathing with
    | some b => { s1 with breathing_history := dequeAppend 100 s1.breathing_history b }
    | none => s1
  let s3 : SessionState :=
    match phase with
    | some p =>
        if p = "" then s2
        else { s2 with phase_movement_map := phaseMapAppend s2.phase_movement_map p movement }
    | none => s2
  if s3.movement_history.length % 30 = 0 then
    { s3 with temporal_snapshots := s3.temporal_snapshots ++
        [{ timestamp := now - s3.created_at
           stillness := 100 - movement * 100
           confidence := confidence }] }
  else s3

/-- Arithmetic mean of a list of reals, sum divided by length. -/
def listMean (xs : List ℝ) : ℝ :=
  xs.sum / (xs.length : ℝ)

/-- Population variance: mean squared deviation from the mean.  This is both
the formula of numpy.var used in the breathing rate estimator and the manual
variance loop in SessionState calculate-consistency (main.py lines 360-362). -/
def popVariance (xs : List ℝ) : ℝ :=
  (xs.map (fun x => (x - listMean xs) ^ 2)).sum / (xs.length : ℝ)

/-- SessionState._calculate_consistency (main.py lines 354-366): 0 when the
breathing history has fewer than 5 samples, otherwise 100 minus ten times the
population variance of the breathing history, clamped into the range 0 to
100 by max(0, ...) then min(100, ...). -/
def SessionState.calculate_consistency (s : SessionState) : ℝ :=
  if s.breathing_history.length < 5 then 0
  else
    let rates := s.breathing_history
    let mean_rate : ℝ := rates.sum / (rates.length : ℝ)
    let variance : ℝ := (rates.map (fun r => (r - mean_rate) ^ 2)).sum / (rates.length : ℝ)
    min 100 (max 0 (100 - variance * 10))

/-- The aggregated session report returned by get_session_summary (main.py
lines 342-352). -/
structure SessionSummary where
  session_id : String
  duration : ℝ
  total_frames : ℕ
  avg_confidence : ℝ
  avg_posture_score : ℝ
  avg_movement_level : ℝ
  avg_breathing_rate : Option ℝ
  stillness_percentage : ℝ
  consistency_score : ℝ

/-- SessionState.get_session_summary (main.py lines 338-352).  Each average is
the arithmetic mean of the corresponding history when it is nonempty and 0
otherwise; the breathing average is none for an empty breathing history;
stillness is the percentage of movement samples strictly below 0.2;
total_frames is the length of the bounded landmark history. -/
def SessionState.get_session_summary (s : SessionState) (now : ℝ) : SessionSummary :=
  { session_id := s.session_id
    duration := now - s.created_at
    total_frames := s.landmark_history.length
    avg_confidence :=
      if s.confidence_history.isEmpty then 0
      else s.confidence_history.sum / (s.confidence_history.length : ℝ)
    avg_posture_score :=
      if s.posture_history.isEmpty then 0
      else s.posture_history.sum / (s.posture_history.length : ℝ)
    avg_movement_level :=
      if s.movement_history.isEmpty then 0
      else s.movement_history.sum / (s.movement_history.length : ℝ)
    avg_breathing_rate :=
      if s.breathing_history.isEmpty then none
      else some (s.breathing_history.sum / (s.breathing_history.length : ℝ))
    stillness_percentage :=
      if s.movement_history.isEmpty then 0
      else ((s.movement_history.countP (fun m => decide (m < 0.2)) : ℝ) /
              (s.movement_history.length : ℝ)) * 100
    consistency_score := s.calculate_consistency }

/-- SessionState._calculate_stability_trend (main.py lines 320-336): with
fewer than 2 temporal snapshots the result is insufficient data; otherwise the
mean stillness of the first half (floor split) is compared with the second
half, with a 5 point dead band. -/
def SessionState.calculate_stability_trend (s : SessionState) : String :=
  if s.temporal_snapshots.length < 2 then "insufficient_data"
  else
    let half := s.temporal_snapshots.length / 2
    let first_half := s.temporal_snapshots.take half
    let second_half := s.temporal_snapshots.drop half
    let first_avg : ℝ := (first_half.map (fun t => t.stillness)).sum / (first_half.length : ℝ)
    let second_avg : ℝ := (second_half.map (fun t => t.stillness)).sum / (second_half.length : ℝ)
    if first_avg + 5 < second_avg then "improving"
    else if second_avg < first_avg - 5 then "declining"
    else "stable"

/-- The nose tip point: landmarks[1] when the set has more than one point,
else landmarks[0]; none on an empty set (the Python IndexError is caught by
the callers). -/
def noseTip (landmarks : List FaceLandmark) : Option FaceLandmark :=
  if 1 < landmarks.length then landmarks.get? 1 else landmarks.get? 0

/-- VisionProcessor._calculate_nostril_area (main.py lines 564-572): the
y-coordinate of the nose tip, with 0.0 on failure (empty set). -/
def calculate_nostril_area (landmarks : List FaceLandmark) : ℝ :=
  match noseTip landmarks with
  | some nose => nose.y
  | none => 0

/-- VisionProcessor._calculate_posture_score (main.py lines 503-530): 0 for
fewer than 20 points, otherwise one minus a weighted deviation of the nose
tip from the reference position (0.5, 0.4), clamped into the range 0 to 1. -/
def calculate_posture_score (landmarks : List FaceLandmark) : ℝ :=
  if landmarks.length < 20 then 0
  else
    match noseTip landmarks with
    | none => 0
    | some nose =>
      let x_deviation := |nose.x - 0.5|
      let y_deviation := |nose.y - 0.4|
      min (max 0 (1 - (x_deviation * 2 + y_deviation * 1.5))) 1

/-- The key point indices for the movement computation (main.py line 473):
indices 1, 10 and 18 when the set has more than 18 points, else index 0. -/
def movementKeyIndices (current : List FaceLandmark) : List ℕ :=
  if 18 < current.length then [1, 10, 18] else [0]

/-- The 2D Euclidean displacement between two landmark points, ignoring z
(main.py lines 484-486). -/
def displacement (c p : FaceLandmark) : ℝ :=
  Real.sqrt ((c.x - p.x) ^ 2 + (c.y - p.y) ^ 2)

/-- The accumulation loop of the movement computation (main.py lines 475-489):
sum of the displacements over those key indices that are in range for both
landmark sets, together with the count of valid points. -/
def movementAccum (current previous : List FaceLandmark) : ℝ × ℕ :=
  (movementKeyIndices current).foldl
    (fun acc idx =>
      match current.get? idx, previous.get? idx with
      | some c, some p => (acc.1 + displacement c p, acc.2 + 1)
      | _, _ => acc)
    (0, 0)

/-- VisionProcessor._calculate_movement_level (main.py lines 462-501), with
its effect on the session threaded explicitly.  Returns 0 and leaves the
session unchanged when the previous or current landmark set is missing or
empty, on a length mismatch, or when no key point is valid; otherwise the
average displacement is scaled by 100 and capped at 1.0, and the result is
appended to the session movement history (line 499) before being returned. -/
def VisionProcessor.calculate_movement_level (current : List FaceLandmark)
    (s : SessionState) : ℝ × SessionState :=
  match s.last_landmarks with
  | none => (0, s)
  | some previous =>
    if previous.isEmpty || current.isEmpty then (0, s)
    else if current.length ≠ previous.length then (0, s)
    else
      let acc := movementAccum current previous
      if acc.2 = 0 then (0, s)
      else
        let movement_level := min (acc.1 / (acc.2 : ℝ) * 100) 1
        (movement_level,
          { s with movement_history := dequeAppend 50 s.movement_history movement_level })

/-- VisionProcessor._estimate_breathing_rate (main.py lines 532-562), with its
effect on the session threaded explicitly.  None for fewer than 30 landmark
points (no append); otherwise the nostril area proxy is appended to the
breathing history, then none while the history holds fewer than 20 samples,
else 12 plus 100 times the population variance of the last 20 samples,
clamped into the range 8 to 20. -/
def VisionProcessor.estimate_breathing_rate (landmarks : List FaceLandmark)
    (s : SessionState) : Option ℝ × SessionState :=
  if landmarks.length < 30 then (none, s)
  else
    let nostril_area := calculate_nostril_area landmarks
    let s1 := { s with breathing_history := dequeAppend 100 s.breathing_history nostril_area }
    if s1.breathing_history.length < 20 then (none, s1)
    else
      let recent_history := lastN 20 s1.breathing_history
      let variance := popVariance recent_history
      (some (max 8 (min 20 (12 + variance * 100))), s1)

/-- The per-frame option flags of a vision processing request (main.py lines
202-206), read via options.get in process_frame. -/
structure FrameOptions where
  detect_face : Bool
  analyze_posture : Bool
  track_breathing : Bool

/-- One frame of input to process_frame, after the external stages: the
landmark extraction result (none models no detected face or any decode
failure, which leave the session untouched), the option flags, the declared
breathing phase and the current wall-clock time. -/
structure FrameInput where
  detection : Option (List FaceLandmark)
  options : FrameOptions
  breathing_phase : Option String
  now : ℝ

/-- The per-frame metric record built by process_frame (class VisionMetrics,
main.py lines 213-220, without the landmark echo and timing). -/
structure FrameMetrics where
  confidence : ℝ
  face_detected : Bool
  posture_score : ℝ
  movement_level : ℝ
  breathing_rate : Option ℝ

/-- VisionProcessor.process_frame (main.py lines 574-650) restricted to its
effect on one session.  With no (or an empty) landmark set the default
metrics are returned and the session is unchanged.  Otherwise: movement is
computed (and appended inside calculate_movement_level) when detect_face is
set, posture when analyze_posture is set, breathing when track_breathing is
set (appending the proxy inside estimate_breathing_rate); then last_landmarks
is overwritten, the landmark set is appended to the bounded landmark history,
and add_frame_metrics ingests the scalars with confidence 0.9. -/
def VisionProcessor.process_frame (inp : FrameInput) (s : SessionState) :
    FrameMetrics × SessionState :=
  match inp.detection with
  | none =>
      ({ confidence := 0, face_detected := false, posture_score := 0
         movement_level := 0, breathing_rate := none }, s)
  | some landmarks =>
    if landmarks.isEmpty then
      ({ confidence := 0, face_detected := false, posture_score := 0
         movement_level := 0, breathing_rate := none }, s)
    else
      let mv := if inp.options.detect_face
        then VisionProcessor.calculate_movement_level landmarks s else (0, s)
      let posture := if inp.options.analyze_posture
        then calculate_posture_score landmarks else 0
      let br := if inp.options.track_breathing
        then VisionProcessor.estimate_breathing_rate landmarks mv.2 else (none, mv.2)
      let s3 := { br.2 with
        last_landmarks := some landmarks
        landmark_history := dequeAppend 30 br.2.landmark_history landmarks }
      let s4 := s3.add_frame_metrics 0.9 posture mv.1 br.1 inp.breathing_phase inp.now
      ({ confidence := 0.9, face_detected := true, posture_score := posture
         movement_level := mv.1, breathing_rate := br.1 }, s4)

/-- One argument tuple for add_frame_metrics, used to speak about arbitrary
ingestion sequences. -/
structure AddArgs where
  confidence : ℝ
  posture : ℝ
  movement : ℝ
  breathing : Option ℝ
  phase : Option String
  now : ℝ

/-- Ingest a sequence of frames into a session through add_frame_metrics. -/
def addFrameSeq (s : SessionState) (args : List AddArgs) : SessionState :=
  args.foldl
    (fun t a => t.add_frame_metrics a.confidence a.posture a.movement a.breathing a.phase a.now)
    s

/-- Run a session through a sequence of process_frame calls. -/
def processFrameSeq (s : SessionState) (frames : List FrameInput) : SessionState :=
  frames.foldl (fun t inp => (VisionProcessor.process_frame inp t).2) s

/-- CONFIG session_timeout (main.py line 59): 300 seconds. -/
def session_timeout : ℝ := 300

/-- One sweep of the background task cleanup_inactive_sessions (main.py lines
656-679) over the session registry, modelled as an association list: every
session whose age now - created_at exceeds session_timeout is deleted, the
rest are kept. -/
def cleanup_inactive_sessions_sweep (sessions : List (String × SessionState))
    (now : ℝ) : List (String × SessionState) :=
  sessions.filter (fun kv => !decide (session_timeout < now - kv.2.created_at))

/-- The five rolling histories of a session are within their capacities. -/
def HistoriesBounded (s : SessionState) : Prop :=
  s.landmark_history.length ≤ 30 ∧ s.breathing_history.length ≤ 100 ∧
  s.movement_history.length ≤ 50 ∧ s.confidence_history.length ≤ 50 ∧
  s.posture_history.length ≤ 50

/-- For sessions driven only by process_frame, the movement history stays
within its capacity, at most one temporal snapshot ever exists, and once one
exists the movement history has already reached length 30. -/
def SnapshotInvariant (s : SessionState) : Prop :=
  s.movement_history.length ≤ 50 ∧ s.temporal_snapshots.length ≤ 1 ∧
    (s.temporal_snapshots.length = 1 → 30 ≤ s.movement_history.length)

/-- A one point landmark set used as concrete input. -/
def cexLandmarks : List FaceLandmark :=
  [{ x := 0, y := 0, z := 0 }]

/-- A session whose previous landmark set equals cexLandmarks. -/
def cexSession : SessionState :=
  { freshSession "cex" 0 with last_landmarks := some cexLandmarks }

/-- A fixed argument tuple for add_frame_metrics, used for concrete
ingestion runs. -/
def constantArgs : AddArgs :=
  { confidence := 0, posture := 0, movement := 0, breathing := none,
    phase := none, now := 0 }

/-- A 30 point landmark set (all points at the origin), enough for the
breathing rate estimator. -/
def wideLandmarks : List FaceLandmark :=
  List.replicate 30 { x := 0, y := 0, z := 0 }

/-- A session already holding 19 identical breathing proxy samples. -/
def breathingSession : SessionState :=
  { freshSession "b" 0 with breathing_history := List.replicate 19 0 }

/-- A session whose breathing history is five identical samples of 10. -/
def steadySession : SessionState :=
  { freshSession "c" 0 with breathing_history := [10, 10, 10, 10, 10] }

/-- A concrete frame input carrying the 30 point landmark set with every
option enabled. -/
def witnessFrame : FrameInput :=
  { detection := some wideLandmarks
    options := { detect_face := true, analyze_posture := true, track_breathing := true }
    breathing_phase := none
    now := 0 }

/-! ### Basic lemmas about bounded deques -/

theorem dequeAppend_length (cap : ℕ) (xs : List α) (v : α) :
    (dequeAppend cap xs v).length = min (xs.length + 1) cap := by
  simp only [dequeAppend]
  split
  · simp only [List.length_drop, List.length_append, List.length_cons, List.length_nil]
    omega
  · simp only [List.length_append, List.length_cons, List.length_nil]
    simp only [List.length_append, List.length_cons, List.length_nil] at *
    omega

theorem lastN_of_length_le (n : ℕ) (xs : List α) (h : xs.length ≤ n) :
    lastN n xs = xs := by
  unfold lastN
  rw [Nat.sub_eq_zero_of_le h, List.drop_zero]

theorem lastN_length (n : ℕ) (xs : List α) :
    (lastN n xs).length = min xs.length n := by
  unfold lastN
  rw [List.length_drop]
  omega

theorem dequeAppend_eq_lastN (cap : ℕ) (xs : List α) (v : α) :
    dequeAppend cap xs v = lastN cap (xs ++ [v]) := by
  simp only [dequeAppend, lastN]
  split
  · rfl
  · rw [Nat.sub_eq_zero_of_le (by omega), List.drop_zero]

theorem lastN_append_lastN (cap : ℕ) (ys zs : List α) :
    lastN cap (lastN cap ys ++ zs) = lastN cap (ys ++ zs) := by
  unfold lastN
  rw [(List.drop_append_of_le_length (Nat.sub_le ys.length cap)).symm, List.drop_drop]
  congr 1
  simp only [List.length_drop, List.length_append]
  omega

theorem foldl_dequeAppend (cap : ℕ) (vs : List α) :
    ∀ acc : List α, acc.length ≤ cap →
      List.foldl (dequeAppend cap) acc vs = lastN cap (acc ++ vs) := by
  induction vs with
  | nil =>
      intro acc h
      rw [List.foldl_nil, List.append_nil]
      exact (lastN_of_length_le cap acc h).symm
  | cons v rest ih =>
      intro acc h
      rw [List.foldl_cons, ih (dequeAppend cap acc v) (by rw [dequeAppend_length]; omega),
        dequeAppend_eq_lastN, lastN_append_lastN]
      congr 1
      simp

theorem foldl_dequeAppend_nil_length (cap : ℕ) (vs : List α) :
    (List.foldl (dequeAppend cap) [] vs).length ≤ cap := by
  rw [foldl_dequeAppend cap vs [] (by simp), List.nil_append, lastN_length]
  omega

/-! ### Field lemmas for add_frame_metrics -/

theorem add_frame_metrics_movement_history (s : SessionState) (c p m : ℝ) (b : Option ℝ)
    (ph : Option String) (now : ℝ) :
    (s.add_frame_metrics c p m b ph now).movement_history =
      dequeAppend 50 s.movement_history m := by
  cases b <;> cases ph <;>
    simp only [SessionState.add_frame_metrics] <;> split_ifs <;> rfl

theorem add_frame_metrics_confidence_history (s : SessionState) (c p m : ℝ) (b : Option ℝ)
    (ph : Option String) (now : ℝ) :
    (s.add_frame_metrics c p m b ph now).confidence_history =
      dequeAppend 50 s.confidence_history c := by
  cases b <;> cases ph <;>
    simp only [SessionState.add_frame_metrics] <;> split_ifs <;> rfl

theorem add_frame_metrics_posture_history (s : SessionState) (c p m : ℝ) (b : Option ℝ)
    (ph : Option String) (now : ℝ) :
    (s.add_frame_metrics c p m b ph now).posture_history =
      dequeAppend 50 s.posture_history p := by
  cases b <;> cases ph <;>
    simp only [SessionState.add_frame_metrics] <;> split_ifs <;> rfl

theorem add_frame_metrics_breathing_history (s : SessionState) (c p m : ℝ) (b : Option ℝ)
    (ph : Option String) (now : ℝ) :
    (s.add_frame_metrics c p m b ph now).breathing_history =
      (match b with
       | some v => dequeAppend 100 s.breathing_history v
       | none => s.breathing_history) := by
  cases b <;> cases ph <;>
    simp only [SessionState.add_frame_metrics] <;> split_ifs <;> rfl

theorem add_frame_metrics_landmark_history (s : SessionState) (c p m : ℝ) (b : Option ℝ)
    (ph : Option String) (now : ℝ) :
    (s.add_frame_metrics c p m b ph now).landmark_history = s.landmark_history := by
  cases b <;> cases ph <;>
    simp only [SessionState.add_frame_metrics] <;> split_ifs <;> rfl

theorem add_frame_metrics_created_at (s : SessionState) (c p m : ℝ) (b : Option ℝ)
    (ph : Option String) (now : ℝ) :
    (s.add_frame_metrics c p m b ph now).created_at = s.created_at := by
  cases b <;> cases ph <;>
    simp only [SessionState.add_frame_metrics] <;> split_ifs <;> rfl

theorem add_frame_metrics_temporal_snapshots_length (s : SessionState) (c p m : ℝ)
    (b : Option ℝ) (ph : Option String) (now : ℝ) :
    (s.add_frame_metrics c p m b ph now).temporal_snapshots.length =
      s.temporal_snapshots.length +
        (if (dequeAppend 50 s.movement_history m).length % 30 = 0 then 1 else 0) := by
  cases b <;> cases ph <;>
    simp only [SessionState.add_frame_metrics] <;> split_ifs <;>
      simp [List.length_append]

/-! ### Field lemmas for the movement and breathing computations -/

theorem calculate_movement_level_breathing_history (current : List FaceLandmark)
    (s : SessionState) :
    (VisionProcessor.calculate_movement_level current s).2.breathing_history =
      s.breathing_history := by
  unfold VisionProcessor.calculate_movement_level
  cases s.last_landmarks <;> dsimp only <;> try rfl
  split_ifs <;> rfl

theorem calculate_movement_level_created_at (current : List FaceLandmark)
    (s : SessionState) :
    (VisionProcessor.calculate_movement_level current s).2.created_at = s.created_at := by
  unfold VisionProcessor.calculate_movement_level
  cases s.last_landmarks <;> dsimp only <;> try rfl
  split_ifs <;> rfl

theorem calculate_movement_level_temporal_snapshots (current : List FaceLandmark)
    (s : SessionState) :
    (VisionProcessor.calculate_movement_level current s).2.temporal_snapshots =
      s.temporal_snapshots := by
  unfold VisionProcessor.calculate_movement_level
  cases s.last_landmarks <;> dsimp only <;> try rfl
  split_ifs <;> rfl

theorem calculate_movement_level_landmark_history (current : List FaceLandmark)
    (s : SessionState) :
    (VisionProcessor.calculate_movement_level current s).2.landmark_history =
      s.landmark_history := by
  unfold VisionProcessor.calculate_movement_level
  cases s.last_landmarks <;> dsimp only <;> try rfl
  split_ifs <;> rfl

theorem calculate_movement_level_confidence_history (current : List FaceLandmark)
    (s : SessionState) :
    (VisionProcessor.calculate_movement_level current s).2.confidence_history =
      s.confidence_history := by
  unfold VisionProcessor.calculate_movement_level
  cases s.last_landmarks <;> dsimp only <;> try rfl
  split_ifs <;> rfl

theorem calculate_movement_level_posture_history (current : List FaceLandmark)
    (s : SessionState) :
    (VisionProcessor.calculate_movement_level current s).2.posture_history =
      s.posture_history := by
  unfold VisionProcessor.calculate_movement_level
  cases s.last_landmarks <;> dsimp only <;> try rfl
  split_ifs <;> rfl

theorem calculate_movement_level_movement_history (current : List FaceLandmark)
    (s : SessionState) :
    (VisionProcessor.calculate_movement_level current s).2.movement_history =
        s.movement_history ∨
      (VisionProcessor.calculate_movement_level current s).2.movement_history =
        dequeAppend 50 s.movement_history
          (VisionProcessor.calculate_movement_level current s).1 := by
  unfold VisionProcessor.calculate_movement_level
  cases s.last_landmarks <;> dsimp only
  · exact Or.inl rfl
  · split_ifs <;> first | exact Or.inl rfl | exact Or.inr rfl

theorem estimate_breathing_rate_movement_history (landmarks : List FaceLandmark)
    (s : SessionState) :
    (VisionProcessor.estimate_breathing_rate landmarks s).2.movement_history =
      s.movement_history := by
  unfold VisionProcessor.estimate_breathing_rate
  dsimp only
  split_ifs <;> rfl

theorem estimate_breathing_rate_created_at (landmarks : List FaceLandmark)
    (s : SessionState) :
    (VisionProcessor.estimate_breathing_rate landmarks s).2.created_at = s.created_at := by
  unfold VisionProcessor.estimate_breathing_rate
  dsimp only
  split_ifs <;> rfl

theorem estimate_breathing_rate_temporal_snapshots (landmarks : List FaceLandmark)
    (s : SessionState) :
    (VisionProcessor.estimate_breathing_rate landmarks s).2.temporal_snapshots =
      s.temporal_snapshots := by
  unfold VisionProcessor.estimate_breathing_rate
  dsimp only
  split_ifs <;> rfl

theorem estimate_breathing_rate_landmark_history (landmarks : List FaceLandmark)
    (s : SessionState) :
    (VisionProcessor.estimate_breathing_rate landmarks s).2.landmark_history =
      s.landmark_history := by
  unfold VisionProcessor.estimate_breathing_rate
  dsimp only
  split_ifs <;> rfl

theorem estimate_breathing_rate_confidence_history (landmarks : List FaceLandmark)
    (s : SessionState) :
    (VisionProcessor.estimate_breathing_rate landmarks s).2.confidence_history =
      s.confidence_history := by
  unfold VisionProcessor.estimate_breathing_rate
  dsimp only
  split_ifs <;> rfl

theorem estimate_breathing_rate_posture_history (landmarks : List FaceLandmark)
    (s : SessionState) :
    (VisionProcessor.estimate_breathing_rate landmarks s).2.posture_history =
      s.posture_history := by
  unfold VisionProcessor.estimate_breathing_rate
  dsimp only
  split_ifs <;> rfl

theorem estimate_breathing_rate_breathing_history (landmarks : List FaceLandmark)
    (s : SessionState) :
    (VisionProcessor.estimate_breathing_rate landmarks s).2.breathing_history =
        s.breathing_history ∨
      (VisionProcessor.estimate_breathing_rate landmarks s).2.breathing_history =
        dequeAppend 100 s.breathing_history (calculate_nostril_area landmarks) := by
  unfold VisionProcessor.estimate_breathing_rate
  dsimp only
  split_ifs <;> first | exact Or.inl rfl | exact Or.inr rfl

/-! ### Length dynamics of ingestion sequences -/

theorem addFrameSeq_cons (s : SessionState) (a : AddArgs) (rest : List AddArgs) :
    addFrameSeq s (a :: rest) =
      addFrameSeq
        (s.add_frame_metrics a.confidence a.posture a.movement a.breathing a.phase a.now)
        rest := rfl

theorem addFrameSeq_lengths (args : List AddArgs) :
    ∀ (s : SessionState) (n : ℕ),
      s.movement_history.length = min n 50 →
      s.temporal_snapshots.length = (if 30 ≤ n then 1 else 0) →
      (addFrameSeq s args).movement_history.length = min (n + args.length) 50 ∧
      (addFrameSeq s args).temporal_snapshots.length =
        (if 30 ≤ n + args.length then 1 else 0) := by
  induction args with
  | nil =>
      intro s n h1 h2
      exact ⟨by simpa [addFrameSeq] using h1, by simpa [addFrameSeq] using h2⟩
  | cons a rest ih =>
      intro s n h1 h2
      rw [addFrameSeq_cons]
      have hstep1 :
          (s.add_frame_metrics a.confidence a.posture a.movement a.breathing a.phase
              a.now).movement_history.length = min (n + 1) 50 := by
        rw [add_frame_metrics_movement_history, dequeAppend_length, h1]
        omega
      have hstep2 :
          (s.add_frame_metrics a.confidence a.posture a.movement a.breathing a.phase
              a.now).temporal_snapshots.length = (if 30 ≤ n + 1 then 1 else 0) := by
        rw [add_frame_metrics_temporal_snapshots_length, dequeAppend_length, h1, h2]
        split_ifs <;> omega
      have := ih _ (n + 1) hstep1 hstep2
      constructor
      · rw [this.1]
        congr 1
        simp only [List.length_cons]
        omega
      · rw [this.2]
        simp only [List.length_cons]
        congr 1
        simp only [eq_iff_iff]
        omega

/-! ### Snapshot count invariant under process_frame -/

theorem movement_stage_movement_history (b : Bool) (lms : List FaceLandmark)
    (s : SessionState) :
    (if b then VisionProcessor.calculate_movement_level lms s
      else ((0 : ℝ), s)).2.movement_history = s.movement_history ∨
    (if b then VisionProcessor.calculate_movement_level lms s
        else ((0 : ℝ), s)).2.movement_history =
      dequeAppend 50 s.movement_history
        (if b then VisionProcessor.calculate_movement_level lms s
          else ((0 : ℝ), s)).1 := by
  cases b
  · exact Or.inl rfl
  · simpa using calculate_movement_level_movement_history lms s

theorem movement_stage_temporal_snapshots (b : Bool) (lms : List FaceLandmark)
    (s : SessionState) :
    (if b then VisionProcessor.calculate_movement_level lms s
      else ((0 : ℝ), s)).2.temporal_snapshots = s.temporal_snapshots := by
  cases b
  · rfl
  · simpa using calculate_movement_level_temporal_snapshots lms s

theorem breathing_stage_movement_history (b : Bool) (lms : List FaceLandmark)
    (s : SessionState) :
    (if b then VisionProcessor.estimate_breathing_rate lms s
      else ((none : Option ℝ), s)).2.movement_history = s.movement_history := by
  cases b
  · rfl
  · simpa using estimate_breathing_rate_movement_history lms s

theorem breathing_stage_temporal_snapshots (b : Bool) (lms : List FaceLandmark)
    (s : SessionState) :
    (if b then VisionProcessor.estimate_breathing_rate lms s
      else ((none : Option ℝ), s)).2.temporal_snapshots = s.temporal_snapshots := by
  cases b
  · rfl
  · simpa using estimate_breathing_rate_temporal_snapshots lms s

theorem process_frame_lengths (inp : FrameInput) (s : SessionState) :
    ((VisionProcessor.process_frame inp s).2.movement_history.length =
        s.movement_history.length ∧
      (VisionProcessor.process_frame inp s).2.temporal_snapshots.length =
        s.temporal_snapshots.length) ∨
    ∃ L1 : ℕ,
      (L1 = s.movement_history.length ∨ L1 = min (s.movement_history.length + 1) 50) ∧
      (VisionProcessor.process_frame inp s).2.movement_history.length = min (L1 + 1) 50 ∧
      (VisionProcessor.process_frame inp s).2.temporal_snapshots.length =
        s.temporal_snapshots.length + (if (min (L1 + 1) 50) % 30 = 0 then 1 else 0) := by
  unfold VisionProcessor.process_frame
  cases inp.detection with
  | none => exact Or.inl ⟨rfl, rfl⟩
  | some landmarks =>
    dsimp only
    by_cases hemp : landmarks.isEmpty = true
    · rw [if_pos hemp]
      exact Or.inl ⟨rfl, rfl⟩
    · rw [if_neg hemp]
      dsimp only
      refine Or.inr
        ⟨(if inp.options.detect_face
            then VisionProcessor.calculate_movement_level landmarks s
            else ((0 : ℝ), s)).2.movement_history.length, ?_, ?_, ?_⟩
      · rcases movement_stage_movement_history inp.options.detect_face landmarks s with h | h
        · exact Or.inl (by rw [h])
        · exact Or.inr (by rw [h, dequeAppend_length])
      · rw [add_frame_metrics_movement_history, dequeAppend_length]
        dsimp only
        rw [breathing_stage_movement_history inp.options.track_breathing landmarks]
      · rw [add_frame_metrics_temporal_snapshots_length]
        dsimp only
        rw [breathing_stage_temporal_snapshots inp.options.track_breathing landmarks,
          movement_stage_temporal_snapshots inp.options.detect_face landmarks,
          dequeAppend_length,
          breathing_stage_movement_history inp.options.track_breathing landmarks]

theorem process_frame_snapshot_invariant (inp : FrameInput) (s : SessionState)
    (h : SnapshotInvariant s) :
    SnapshotInvariant (VisionProcessor.process_frame inp s).2 := by
  obtain ⟨hL, hT, hts⟩ := h
  rcases process_frame_lengths inp s with ⟨h1, h2⟩ | ⟨L1, hL1, h1, h2⟩
  · exact ⟨by rw [h1]; exact hL, by rw [h2]; exact hT, fun hh => by
      rw [h1]; exact hts (by rw [← h2]; exact hh)⟩
  · have hb : s.movement_history.length ≤ L1 ∧ L1 ≤ 50 := by
      rcases hL1 with h | h <;> omega
    by_cases hT1 : s.temporal_snapshots.length = 1
    · have h30 := hts hT1
      refine ⟨by rw [h1]; omega, ?_, fun _ => by rw [h1]; omega⟩
      rw [h2, if_neg ?_]
      · omega
      · omega
    · have hT0 : s.temporal_snapshots.length = 0 := by omega
      refine ⟨by rw [h1]; omega, ?_, ?_⟩
      · rw [h2, hT0]
        split_ifs <;> omega
      · intro hh
        rw [h1]
        rw [h2, hT0] at hh
        split_ifs at hh with hm
        · omega
        · omega

theorem processFrameSeq_snapshot_invariant (frames : List FrameInput) :
    ∀ s : SessionState, SnapshotInvariant s →
      SnapshotInvariant (processFrameSeq s frames) := by
  induction frames with
  | nil => intro s h; exact h
  | cons f rest ih =>
      intro s h
      exact ih _ (process_frame_snapshot_invariant f s h)

/-! ### Variance and self-displacement lemmas -/

theorem listMean_replicate (n : ℕ) (c : ℝ) (h : n ≠ 0) :
    listMean (List.replicate n c) = c := by
  unfold listMean
  rw [List.sum_replicate, List.length_replicate, nsmul_eq_mul]
  field_simp

theorem popVariance_replicate (n : ℕ) (c : ℝ) (h : n ≠ 0) :
    popVariance (List.replicate n c) = 0 := by
  unfold popVariance
  rw [List.map_replicate, listMean_replicate n c h, sub_self]
  simp

theorem displacement_self (c : FaceLandmark) : displacement c c = 0 := by
  unfold displacement
  rw [sub_self, sub_self]
  simp

theorem foldl_fst_eq {β : Type} (f : (ℝ × ℕ) → β → (ℝ × ℕ))
    (hf : ∀ acc b, (f acc b).1 = acc.1) :
    ∀ (l : List β) (acc : ℝ × ℕ), (List.foldl f acc l).1 = acc.1 := by
  intro l
  induction l with
  | nil => intro acc; rfl
  | cons x rest ih => intro acc; rw [List.foldl_cons, ih, hf]

theorem movementAccum_self_fst (A : List FaceLandmark) :
    (movementAccum A A).1 = 0 := by
  unfold movementAccum
  refine foldl_fst_eq _ ?_ _ _
  intro acc idx
  cases h : A.get? idx <;> simp [h, displacement_self]

/-! ### Claim C9: zero movement against an identical previous set -/

/-- Claim C9: for every non-empty landmark set A, computing the movement level
of A against a previous set equal to A yields exactly 0. -/
theorem claim_C9 (A : List FaceLandmark) (s : SessionState)
    (h1 : A ≠ []) (h2 : s.last_landmarks = some A) :
    (VisionProcessor.calculate_movement_level A s).1 = 0 := by
  unfold VisionProcessor.calculate_movement_level
  rw [h2]
  dsimp only
  rw [if_neg (by simp [List.isEmpty_iff, h1]), if_neg (by simp)]
  split_ifs with hv
  · rfl
  · rw [movementAccum_self_fst]
    simp

/-- Witness for claim C9 at the one point landmark set. -/
theorem claim_C9_witness :
    (VisionProcessor.calculate_movement_level cexLandmarks cexSession).1 = 0 :=
  claim_C9 cexLandmarks cexSession (by simp [cexLandmarks]) rfl

/-! ### Claim C2: the movement computation mutates the session -/

/-- Claim C2 counterexample: the movement computation does append to the
movement rolling history; at a concrete one point landmark set against an
identical previous set, the movement history grows from length 0 to 1. -/
theorem claim_C2_counterexample :
    (VisionProcessor.calculate_movement_level cexLandmarks cexSession).2.movement_history.length = 1 ∧
    cexSession.movement_history.length = 0 := by
  constructor
  · unfold VisionProcessor.calculate_movement_level
    rw [show cexSession.last_landmarks = some cexLandmarks from rfl]
    dsimp only
    rw [if_neg (by simp [cexLandmarks]), if_neg (by simp),
      if_neg (by simp [movementAccum, movementKeyIndices, cexLandmarks])]
    simp [dequeAppend_length, cexSession, freshSession]
  · rfl

/-- Claim C2 (amended): on the computation path (previous landmarks present
and non-empty, current non-empty, matching lengths, at least one valid key
point) the movement computation returns the scaled capped average
displacement and also appends that value to the session movement history
itself; the caller appends it a second time through add_frame_metrics. -/
theorem claim_C2 (current : List FaceLandmark) (s : SessionState)
    (previous : List FaceLandmark) (h1 : s.last_landmarks = some previous)
    (h2 : previous ≠ []) (h3 : current ≠ [])
    (h4 : current.length = previous.length)
    (h5 : (movementAccum current previous).2 ≠ 0) :
    (VisionProcessor.calculate_movement_level current s).1 =
      min ((movementAccum current previous).1 /
        ((movementAccum current previous).2 : ℝ) * 100) 1 ∧
    (VisionProcessor.calculate_movement_level current s).2 =
      { s with movement_history := (dequeAppend 50 s.movement_history
          (VisionProcessor.calculate_movement_level current s).1) } := by
  unfold VisionProcessor.calculate_movement_level
  rw [h1]
  dsimp only
  rw [if_neg (by simp [List.isEmpty_iff, h2, h3]), if_neg (by simp [h4]), if_neg h5]
  exact ⟨rfl, rfl⟩

/-- Witness for the amended claim C2 at the concrete one point input. -/
theorem claim_C2_witness :
    (VisionProcessor.calculate_movement_level cexLandmarks cexSession).2 =
      { cexSession with movement_history := (dequeAppend 50 cexSession.movement_history
          (VisionProcessor.calculate_movement_level cexLandmarks cexSession).1) } :=
  (claim_C2 cexLandmarks cexSession cexLandmarks rfl (by simp [cexLandmarks])
    (by simp [cexLandmarks]) rfl
    (by simp [movementAccum, movementKeyIndices, cexLandmarks])).2

/-! ### Claim C1: temporal snapshot cadence -/

/-- Claim C1 (amended): ingesting n frames through add_frame_metrics into a
fresh session yields exactly one temporal snapshot once n reaches 30 and none
before; because the movement history is capped at 50, its length is stuck at
50 from the 50th frame on and is never again a multiple of 30, so the count
never reaches floor(n/30). -/
theorem claim_C1 (sid : String) (t : ℝ) (args : List AddArgs) :
    (addFrameSeq (freshSession sid t) args).temporal_snapshots.length =
      (if 30 ≤ args.length then 1 else 0) := by
  have h := addFrameSeq_lengths args (freshSession sid t) 0 (by simp [freshSession])
    (by simp [freshSession])
  simpa using h.2

/-- Claim C1 counterexample: after 60 ingested frames the snapshot count is 1,
not floor(60/30) = 2. -/
theorem claim_C1_counterexample :
    (addFrameSeq (freshSession "s" 0)
        (List.replicate 60 constantArgs)).temporal_snapshots.length = 1 ∧
    (addFrameSeq (freshSession "s" 0)
        (List.replicate 60 constantArgs)).temporal_snapshots.length ≠ 60 / 30 := by
  have h := (addFrameSeq_lengths (List.replicate 60 constantArgs) (freshSession "s" 0) 0
    (by simp [freshSession]) (by simp [freshSession])).2
  rw [List.length_replicate] at h
  norm_num at h
  exact ⟨h, by rw [h]; norm_num⟩

/-! ### Claim C7: at most one snapshot through process_frame -/

/-- Claim C7: a session mutated only through process_frame never accumulates
more than one temporal snapshot (the movement history receives up to two
appends per frame while being capped at 50, so its length can pass through the
sole reachable multiple of 30 at most once), hence the stability trend is
always insufficient data. -/
theorem claim_C7 (sid : String) (t : ℝ) (frames : List FrameInput) :
    (processFrameSeq (freshSession sid t) frames).temporal_snapshots.length ≤ 1 ∧
    (processFrameSeq (freshSession sid t) frames).calculate_stability_trend =
      "insufficient_data" := by
  have hinv := processFrameSeq_snapshot_invariant frames (freshSession sid t)
    ⟨by simp [freshSession], by simp [freshSession], by simp [freshSession]⟩
  refine ⟨hinv.2.1, ?_⟩
  have h2 : (processFrameSeq (freshSession sid t) frames).temporal_snapshots.length < 2 := by
    have := hinv.2.1
    omega
  unfold SessionState.calculate_stability_trend
  rw [if_pos h2]

/-! ### Claim C10: summary of a fresh session -/

/-- Claim C10: the session summary of a freshly created session reports all
averages, the stillness percentage, the consistency score and the frame count
as 0, and no breathing rate. -/
theorem claim_C10 (sid : String) (t now : ℝ) :
    ((freshSession sid t).get_session_summary now).total_frames = 0 ∧
    ((freshSession sid t).get_session_summary now).avg_confidence = 0 ∧
    ((freshSession sid t).get_session_summary now).avg_posture_score = 0 ∧
    ((freshSession sid t).get_session_summary now).avg_movement_level = 0 ∧
    ((freshSession sid t).get_session_summary now).stillness_percentage = 0 ∧
    ((freshSession sid t).get_session_summary now).consistency_score = 0 ∧
    ((freshSession sid t).get_session_summary now).avg_breathing_rate = none := by
  refine ⟨rfl, ?_, ?_, ?_, ?_, ?_, ?_⟩ <;>
    simp [SessionState.get_session_summary, SessionState.calculate_consistency, freshSession]

/-! ### Claim C6: consistency score -/

/-- Claim C6: the consistency score is 0 for fewer than 5 breathing samples,
otherwise 100 minus ten times the population variance of the breathing
history clamped into the range 0 to 100; five identical samples of 10 yield
exactly 100. -/
theorem claim_C6 (s : SessionState) :
    (s.breathing_history.length < 5 → s.calculate_consistency = 0) ∧
    (5 ≤ s.breathing_history.length →
      s.calculate_consistency =
        min 100 (max 0 (100 - popVariance s.breathing_history * 10))) ∧
    (s.breathing_history = [10, 10, 10, 10, 10] → s.calculate_consistency = 100) := by
  refine ⟨?_, ?_, ?_⟩
  · intro h
    unfold SessionState.calculate_consistency
    rw [if_pos h]
  · intro h
    unfold SessionState.calculate_consistency popVariance listMean
    rw [if_neg (by omega)]
  · intro h
    unfold SessionState.calculate_consistency
    rw [h]
    rw [if_neg (by norm_num)]
    dsimp only
    have hv := popVariance_replicate 5 (10 : ℝ) (by norm_num)
    rw [show (List.replicate 5 (10 : ℝ)) = [10, 10, 10, 10, 10] from rfl] at hv
    unfold popVariance listMean at hv
    rw [hv]
    norm_num

/-- Witness for claim C6: five identical samples give 100, a fresh session
gives 0. -/
theorem claim_C6_witness :
    steadySession.calculate_consistency = 100 ∧
    (freshSession "w" 0).calculate_consistency = 0 :=
  ⟨(claim_C6 steadySession).2.2 rfl,
   (claim_C6 (freshSession "w" 0)).1 (by simp [freshSession])⟩

/-! ### The breathing rate estimator on its success path -/

theorem estimate_breathing_rate_success (landmarks : List FaceLandmark) (s : SessionState)
    (h30 : 30 ≤ landmarks.length) (h19 : 19 ≤ s.breathing_history.length) :
    VisionProcessor.estimate_breathing_rate landmarks s =
      (some (max 8 (min 20 (12 + popVariance (lastN 20 (dequeAppend 100 s.breathing_history
          (calculate_nostril_area landmarks))) * 100))),
       { s with breathing_history := (dequeAppend 100 s.breathing_history
          (calculate_nostril_area landmarks)) }) := by
  unfold VisionProcessor.estimate_breathing_rate
  rw [if_neg (by omega)]
  dsimp only
  rw [if_neg (by rw [dequeAppend_length]; omega)]

/-! ### Claim C4: the breathing rate estimator -/

/-- Claim C4: the estimator returns none (without touching the session) for
fewer than 30 landmark points; with at least 30 points it appends the nostril
area proxy to the breathing history, returns none while the post-append
history is shorter than 20, and otherwise returns 12 plus 100 times the
population variance of the last 20 samples clamped to the range 8 to 20;
every returned rate lies in that range, and 19 previous identical samples
followed by a matching proxy give exactly 12. -/
theorem claim_C4 (landmarks : List FaceLandmark) (s : SessionState) :
    (landmarks.length < 30 →
      VisionProcessor.estimate_breathing_rate landmarks s = (none, s)) ∧
    (30 ≤ landmarks.length →
      (VisionProcessor.estimate_breathing_rate landmarks s).2.breathing_history =
        dequeAppend 100 s.breathing_history (calculate_nostril_area landmarks)) ∧
    (30 ≤ landmarks.length →
      (dequeAppend 100 s.breathing_history (calculate_nostril_area landmarks)).length < 20 →
      (VisionProcessor.estimate_breathing_rate landmarks s).1 = none) ∧
    (30 ≤ landmarks.length →
      20 ≤ (dequeAppend 100 s.breathing_history (calculate_nostril_area landmarks)).length →
      (VisionProcessor.estimate_breathing_rate landmarks s).1 =
        some (max 8 (min 20 (12 + popVariance (lastN 20 (dequeAppend 100 s.breathing_history
          (calculate_nostril_area landmarks))) * 100)))) ∧
    (∀ r : ℝ, (VisionProcessor.estimate_breathing_rate landmarks s).1 = some r →
      8 ≤ r ∧ r ≤ 20) ∧
    (∀ c : ℝ, 30 ≤ landmarks.length → s.breathing_history = List.replicate 19 c →
      calculate_nostril_area landmarks = c →
      (VisionProcessor.estimate_breathing_rate landmarks s).1 = some 12) := by
  refine ⟨?_, ?_, ?_, ?_, ?_, ?_⟩
  · intro h
    unfold VisionProcessor.estimate_breathing_rate
    rw [if_pos h]
  · intro h30
    unfold VisionProcessor.estimate_breathing_rate
    rw [if_neg (by omega)]
    dsimp only
    split_ifs <;> rfl
  · intro h30 h20
    unfold VisionProcessor.estimate_breathing_rate
    rw [if_neg (by omega)]
    dsimp only
    rw [if_pos h20]
  · intro h30 h20
    have h19 : 19 ≤ s.breathing_history.length := by
      rw [dequeAppend_length] at h20
      omega
    rw [estimate_breathing_rate_success landmarks s h30 h19]
  · intro r hr
    by_cases hA : landmarks.length < 30
    · unfold VisionProcessor.estimate_breathing_rate at hr
      rw [if_pos hA] at hr
      exact absurd hr (by simp)
    · by_cases hB : (dequeAppend 100 s.breathing_history
          (calculate_nostril_area landmarks)).length < 20
      · unfold VisionProcessor.estimate_breathing_rate at hr
        rw [if_neg hA] at hr
        dsimp only at hr
        rw [if_pos hB] at hr
        exact absurd hr (by simp)
      · have h19 : 19 ≤ s.breathing_history.length := by
          rw [dequeAppend_length] at hB
          omega
        rw [estimate_breathing_rate_success landmarks s (by omega) h19] at hr
        dsimp only at hr
        rw [Option.some.injEq] at hr
        subst hr
        exact ⟨le_max_left _ _, max_le (by norm_num) (min_le_left _ _)⟩
  · intro c h30 hrep hnos
    have h19 : 19 ≤ s.breathing_history.length := by rw [hrep]; simp
    rw [estimate_breathing_rate_success landmarks s h30 h19]
    dsimp only
    rw [hrep, hnos]
    have hfull : dequeAppend 100 (List.replicate 19 c) c = List.replicate 20 c := by
      rw [dequeAppend_eq_lastN, lastN_of_length_le _ _ (by simp)]
      exact (List.replicate_succ' 19 c).symm
    rw [hfull, lastN_of_length_le 20 _ (by simp), popVariance_replicate 20 c (by norm_num)]
    rw [show (12 : ℝ) + 0 * 100 = 12 by ring,
      min_eq_right (by norm_num : (12 : ℝ) ≤ 20),
      max_eq_right (by norm_num : (8 : ℝ) ≤ 12)]

/-- Witness for claim C4: an empty landmark set leaves the state untouched,
and a 30 point set against 19 identical stored samples yields exactly 12. -/
theorem claim_C4_witness :
    VisionProcessor.estimate_breathing_rate [] breathingSession = (none, breathingSession) ∧
    (VisionProcessor.estimate_breathing_rate wideLandmarks breathingSession).1 = some 12 :=
  ⟨(claim_C4 [] breathingSession).1 (by simp),
   (claim_C4 wideLandmarks breathingSession).2.2.2.2.2 0 (by simp [wideLandmarks]) rfl
     (by simp [calculate_nostril_area, noseTip, wideLandmarks])⟩

theorem movement_stage_breathing_history (b : Bool) (lms : List FaceLandmark)
    (s : SessionState) :
    (if b then VisionProcessor.calculate_movement_level lms s
      else ((0 : ℝ), s)).2.breathing_history = s.breathing_history := by
  cases b
  · rfl
  · simpa using calculate_movement_level_breathing_history lms s

theorem dequeAppend_ne_nil (cap : ℕ) (hcap : 0 < cap) (xs : List α) (v : α) :
    dequeAppend cap xs v ≠ [] := by
  intro hc
  have h := dequeAppend_length cap xs v
  rw [hc] at h
  simp at h
  omega

/-! ### Claim C3: the breathing history mixes proxies and rates -/

/-- Claim C3: a process_frame call that yields a breathing rate (at least 30
landmark points, breathing tracking enabled, at least 19 previously stored
samples so that the post-append window reaches 20) appends twice to the one
breathing history deque: first the nose tip y proxy, then the clamped
estimated rate; the session summary then averages, and scores consistency
over, this mixed history. -/
theorem claim_C3 (inp : FrameInput) (s : SessionState) (landmarks : List FaceLandmark)
    (now : ℝ) (hdet : inp.detection = some landmarks) (h30 : 30 ≤ landmarks.length)
    (htb : inp.options.track_breathing = true)
    (h19 : 19 ≤ s.breathing_history.length) :
    ∃ rate : ℝ,
      rate = max 8 (min 20 (12 + popVariance (lastN 20 (dequeAppend 100
        s.breathing_history (calculate_nostril_area landmarks))) * 100)) ∧
      8 ≤ rate ∧ rate ≤ 20 ∧
      (VisionProcessor.process_frame inp s).1.breathing_rate = some rate ∧
      (VisionProcessor.process_frame inp s).2.breathing_history =
        dequeAppend 100 (dequeAppend 100 s.breathing_history
          (calculate_nostril_area landmarks)) rate ∧
      ((VisionProcessor.process_frame inp s).2.get_session_summary now).avg_breathing_rate =
        some ((VisionProcessor.process_frame inp s).2.breathing_history.sum /
          ((VisionProcessor.process_frame inp s).2.breathing_history.length : ℝ)) ∧
      ((VisionProcessor.process_frame inp s).2.get_session_summary now).consistency_score =
        min 100 (max 0 (100 -
          popVariance (VisionProcessor.process_frame inp s).2.breathing_history * 10)) := by
  have hne : landmarks.isEmpty = false := by
    cases landmarks
    · simp at h30
    · rfl
  have hmvbh :
      (if inp.options.detect_face then VisionProcessor.calculate_movement_level landmarks s
        else ((0 : ℝ), s)).2.breathing_history = s.breathing_history :=
    movement_stage_breathing_history inp.options.detect_face landmarks s
  have hest := estimate_breathing_rate_success landmarks
    (if inp.options.detect_face then VisionProcessor.calculate_movement_level landmarks s
      else ((0 : ℝ), s)).2 h30 (by rw [hmvbh]; exact h19)
  rw [hmvbh] at hest
  unfold VisionProcessor.process_frame
  rw [hdet]
  dsimp only
  rw [if_neg (by simp [hne]), if_pos htb, hest]
  dsimp only
  refine ⟨_, rfl, le_max_left _ _, max_le (by norm_num) (min_le_left _ _), rfl, ?_, ?_, ?_⟩
  · rw [add_frame_metrics_breathing_history]
  · unfold SessionState.get_session_summary
    dsimp only
    rw [if_neg ?_]
    · rw [add_frame_metrics_breathing_history]
      dsimp only
      simp only [List.isEmpty_iff]
      exact dequeAppend_ne_nil 100 (by norm_num) _ _
  · unfold SessionState.get_session_summary
    dsimp only
    unfold SessionState.calculate_consistency
    rw [if_neg ?_]
    · unfold popVariance listMean
      rfl
    · rw [add_frame_metrics_breathing_history]
      dsimp only
      rw [dequeAppend_length, dequeAppend_length]
      omega

/-- Witness for claim C3 at the 30 point landmark set against 19 stored
samples: the frame appends the proxy and then a rate in the range 8 to 20. -/
theorem claim_C3_witness :
    ∃ rate : ℝ, 8 ≤ rate ∧ rate ≤ 20 ∧
      (VisionProcessor.process_frame witnessFrame breathingSession).1.breathing_rate =
        some rate ∧
      (VisionProcessor.process_frame witnessFrame breathingSession).2.breathing_history =
        dequeAppend 100 (dequeAppend 100 breathingSession.breathing_history
          (calculate_nostril_area wideLandmarks)) rate := by
  obtain ⟨r, _, h1, h2, h3, h4, _, _⟩ := claim_C3 witnessFrame breathingSession wideLandmarks 0
    rfl (by simp [wideLandmarks]) rfl (by simp [breathingSession, freshSession])
  exact ⟨r, h1, h2, h3, h4⟩

theorem add_frame_metrics_breathing_history_none (s : SessionState) (c p m : ℝ)
    (ph : Option String) (now : ℝ) :
    (s.add_frame_metrics c p m none ph now).breathing_history = s.breathing_history := by
  rw [add_frame_metrics_breathing_history]

theorem add_frame_metrics_breathing_history_some (s : SessionState) (c p m v : ℝ)
    (ph : Option String) (now : ℝ) :
    (s.add_frame_metrics c p m (some v) ph now).breathing_history =
      dequeAppend 100 s.breathing_history v := by
  rw [add_frame_metrics_breathing_history]

theorem add_frame_metrics_breathing_le (s : SessionState) (c p m : ℝ) (b : Option ℝ)
    (ph : Option String) (now : ℝ) (h : s.breathing_history.length ≤ 100) :
    (s.add_frame_metrics c p m b ph now).breathing_history.length ≤ 100 := by
  cases b
  · rw [add_frame_metrics_breathing_history_none]
    exact h
  · rw [add_frame_metrics_breathing_history_some, dequeAppend_length]
    omega

theorem movement_stage_confidence_history (b : Bool) (lms : List FaceLandmark)
    (s : SessionState) :
    (if b then VisionProcessor.calculate_movement_level lms s
      else ((0 : ℝ), s)).2.confidence_history = s.confidence_history := by
  cases b
  · rfl
  · simpa using calculate_movement_level_confidence_history lms s

theorem movement_stage_posture_history (b : Bool) (lms : List FaceLandmark)
    (s : SessionState) :
    (if b then VisionProcessor.calculate_movement_level lms s
      else ((0 : ℝ), s)).2.posture_history = s.posture_history := by
  cases b
  · rfl
  · simpa using calculate_movement_level_posture_history lms s

theorem movement_stage_landmark_history (b : Bool) (lms : List FaceLandmark)
    (s : SessionState) :
    (if b then VisionProcessor.calculate_movement_level lms s
      else ((0 : ℝ), s)).2.landmark_history = s.landmark_history := by
  cases b
  · rfl
  · simpa using calculate_movement_level_landmark_history lms s

theorem movement_stage_created_at (b : Bool) (lms : List FaceLandmark)
    (s : SessionState) :
    (if b then VisionProcessor.calculate_movement_level lms s
      else ((0 : ℝ), s)).2.created_at = s.created_at := by
  cases b
  · rfl
  · simpa using calculate_movement_level_created_at lms s

theorem movement_stage_movement_length_le (b : Bool) (lms : List FaceLandmark)
    (s : SessionState) (h : s.movement_history.length ≤ 50) :
    (if b then VisionProcessor.calculate_movement_level lms s
      else ((0 : ℝ), s)).2.movement_history.length ≤ 50 := by
  rcases movement_stage_movement_history b lms s with hm | hm <;> rw [hm]
  · exact h
  · rw [dequeAppend_length]
    omega

theorem breathing_stage_confidence_history (b : Bool) (lms : List FaceLandmark)
    (s : SessionState) :
    (if b then VisionProcessor.estimate_breathing_rate lms s
      else ((none : Option ℝ), s)).2.confidence_history = s.confidence_history := by
  cases b
  · rfl
  · simpa using estimate_breathing_rate_confidence_history lms s

theorem breathing_stage_posture_history (b : Bool) (lms : List FaceLandmark)
    (s : SessionState) :
    (if b then VisionProcessor.estimate_breathing_rate lms s
      else ((none : Option ℝ), s)).2.posture_history = s.posture_history := by
  cases b
  · rfl
  · simpa using estimate_breathing_rate_posture_history lms s

theorem breathing_stage_landmark_history (b : Bool) (lms : List FaceLandmark)
    (s : SessionState) :
    (if b then VisionProcessor.estimate_breathing_rate lms s
      else ((none : Option ℝ), s)).2.landmark_history = s.landmark_history := by
  cases b
  · rfl
  · simpa using estimate_breathing_rate_landmark_history lms s

theorem breathing_stage_created_at (b : Bool) (lms : List FaceLandmark)
    (s : SessionState) :
    (if b then VisionProcessor.estimate_breathing_rate lms s
      else ((none : Option ℝ), s)).2.created_at = s.created_at := by
  cases b
  · rfl
  · simpa using estimate_breathing_rate_created_at lms s

theorem breathing_stage_breathing_history_cases (b : Bool) (lms : List FaceLandmark)
    (s : SessionState) :
    (if b then VisionProcessor.estimate_breathing_rate lms s
        else ((none : Option ℝ), s)).2.breathing_history = s.breathing_history ∨
    (if b then VisionProcessor.estimate_breathing_rate lms s
        else ((none : Option ℝ), s)).2.breathing_history =
      dequeAppend 100 s.breathing_history (calculate_nostril_area lms) := by
  cases b
  · exact Or.inl rfl
  · simpa using estimate_breathing_rate_breathing_history lms s

theorem breathing_stage_breathing_length_le (b : Bool) (lms : List FaceLandmark)
    (s : SessionState) (h : s.breathing_history.length ≤ 100) :
    (if b then VisionProcessor.estimate_breathing_rate lms s
      else ((none : Option ℝ), s)).2.breathing_history.length ≤ 100 := by
  rcases breathing_stage_breathing_history_cases b lms s with hm | hm <;> rw [hm]
  · exact h
  · rw [dequeAppend_length]
    omega

/-! ### Claim C5: bounded histories, strict FIFO eviction, immutable creation time -/

/-- Claim C5: the five rolling histories never exceed their capacities under
add_frame_metrics or process_frame; any append sequence into a capacity K
deque stays within K; appending K+1 distinct values to an empty capacity K
deque leaves exactly the most recent K in insertion order with the first
value evicted; and neither ingestion path ever changes created_at. -/
theorem claim_C5 :
    (∀ (s : SessionState) (c p m : ℝ) (b : Option ℝ) (ph : Option String) (now : ℝ),
        HistoriesBounded s → HistoriesBounded (s.add_frame_metrics c p m b ph now)) ∧
    (∀ (inp : FrameInput) (s : SessionState), HistoriesBounded s →
        HistoriesBounded (VisionProcessor.process_frame inp s).2) ∧
    (∀ (K : ℕ) (vs : List ℝ), (List.foldl (dequeAppend K) [] vs).length ≤ K) ∧
    (∀ (K : ℕ) (vs : List ℝ), vs.length = K + 1 → vs.Nodup →
        List.foldl (dequeAppend K) [] vs = vs.drop 1 ∧
        ∀ h0 ∈ vs.take 1, h0 ∉ vs.drop 1) ∧
    (∀ (s : SessionState) (c p m : ℝ) (b : Option ℝ) (ph : Option String) (now : ℝ),
        (s.add_frame_metrics c p m b ph now).created_at = s.created_at) ∧
    (∀ (inp : FrameInput) (s : SessionState),
        (VisionProcessor.process_frame inp s).2.created_at = s.created_at) := by
  refine ⟨?_, ?_, ?_, ?_, ?_, ?_⟩
  · intro s c p m b ph now hb
    obtain ⟨h1, h2, h3, h4, h5⟩ := hb
    refine ⟨?_, ?_, ?_, ?_, ?_⟩
    · rw [add_frame_metrics_landmark_history]
      exact h1
    · rw [add_frame_metrics_breathing_history]
      cases b <;> dsimp only
      · exact h2
      · rw [dequeAppend_length]
        omega
    · rw [add_frame_metrics_movement_history, dequeAppend_length]
      omega
    · rw [add_frame_metrics_confidence_history, dequeAppend_length]
      omega
    · rw [add_frame_metrics_posture_history, dequeAppend_length]
      omega
  · intro inp s hb
    obtain ⟨h1, h2, h3, h4, h5⟩ := hb
    unfold VisionProcessor.process_frame
    cases inp.detection with
    | none => exact ⟨h1, h2, h3, h4, h5⟩
    | some landmarks =>
      dsimp only
      by_cases hemp : landmarks.isEmpty = true
      · rw [if_pos hemp]
        exact ⟨h1, h2, h3, h4, h5⟩
      · rw [if_neg hemp]
        dsimp only
        refine ⟨?_, ?_, ?_, ?_, ?_⟩
        · rw [add_frame_metrics_landmark_history]
          dsimp only
          rw [dequeAppend_length]
          omega
        · apply add_frame_metrics_breathing_le
          dsimp only
          apply breathing_stage_breathing_length_le
          rw [movement_stage_breathing_history]
          exact h2
        · rw [add_frame_metrics_movement_history, dequeAppend_length]
          omega
        · rw [add_frame_metrics_confidence_history, dequeAppend_length]
          omega
        · rw [add_frame_metrics_posture_history, dequeAppend_length]
          omega
  · intro K vs
    exact foldl_dequeAppend_nil_length K vs
  · intro K vs hlen hnd
    have hfold : List.foldl (dequeAppend K) [] vs = vs.drop 1 := by
      rw [foldl_dequeAppend K vs [] (by simp), List.nil_append]
      unfold lastN
      congr 1
      omega
    refine ⟨hfold, ?_⟩
    intro h0 hh0 hcontra
    cases vs with
    | nil => simp at hh0
    | cons v rest =>
      simp at hh0
      subst hh0
      simp only [List.drop_succ_cons, List.drop_zero] at hcontra
      exact (List.nodup_cons.mp hnd).1 hcontra
  · intro s c p m b ph now
    exact add_frame_metrics_created_at s c p m b ph now
  · intro inp s
    unfold VisionProcessor.process_frame
    cases inp.detection with
    | none => rfl
    | some landmarks =>
      dsimp only
      by_cases hemp : landmarks.isEmpty = true
      · rw [if_pos hemp]
      · rw [if_neg hemp]
        dsimp only
        rw [add_frame_metrics_created_at]
        dsimp only
        rw [breathing_stage_created_at, movement_stage_created_at]

/-- Witness for claim C5: one ingested frame keeps a fresh session within
bounds; three distinct values into a capacity 2 deque keep the last two in
order and evict the first. -/
theorem claim_C5_witness :
    HistoriesBounded ((freshSession "w" 0).add_frame_metrics 1 1 1 none none 0) ∧
    List.foldl (dequeAppend 2) [] [(0 : ℝ), 1, 2] = [(1 : ℝ), 2] ∧
    (0 : ℝ) ∉ [(1 : ℝ), 2] := by
  refine ⟨?_, ?_, ?_⟩
  · exact claim_C5.1 (freshSession "w" 0) 1 1 1 none none 0
      (by simp [HistoriesBounded, freshSession])
  · have h := (claim_C5.2.2.2.1 2 [(0 : ℝ), 1, 2] (by simp) (by norm_num)).1
    simpa using h
  · have h := (claim_C5.2.2.2.1 2 [(0 : ℝ), 1, 2] (by simp) (by norm_num)).2 0 (by simp)
    simpa using h

/-! ### Claim C8: idle eviction sweep -/

/-- Claim C8: one sweep of the background cleanup task keeps exactly the
sessions whose age does not exceed the 300 second timeout: membership after
the sweep depends only on the session age, any entry at least one second past
the timeout is gone, and any entry no older than the timeout survives. -/
theorem claim_C8 (sessions : List (String × SessionState)) (now : ℝ) :
    (∀ kv ∈ sessions, session_timeout + 1 ≤ now - kv.2.created_at →
        kv ∉ cleanup_inactive_sessions_sweep sessions now) ∧
    (∀ kv ∈ sessions, now - kv.2.created_at ≤ session_timeout →
        kv ∈ cleanup_inactive_sessions_sweep sessions now) ∧
    (∀ kv : String × SessionState, kv ∈ cleanup_inactive_sessions_sweep sessions now ↔
        kv ∈ sessions ∧ ¬ (session_timeout < now - kv.2.created_at)) := by
  have hmem : ∀ kv : String × SessionState,
      kv ∈ cleanup_inactive_sessions_sweep sessions now ↔
        kv ∈ sessions ∧ ¬ (session_timeout < now - kv.2.created_at) := by
    intro kv
    unfold cleanup_inactive_sessions_sweep
    rw [List.mem_filter]
    simp
  refine ⟨?_, ?_, hmem⟩
  · intro kv hk hage hin
    have h2 := ((hmem kv).1 hin).2
    push_neg at h2
    linarith
  · intro kv hk hage
    exact (hmem kv).2 ⟨hk, by push_neg; exact hage⟩

/-- Witness for claim C8: with the sweep at time 1000, a session created at
time 0 (age 1000, more than a second past the 300 second timeout) is gone
and a session created at time 999 (age 1) survives. -/
theorem claim_C8_witness :
    ("old", freshSession "old" 0) ∉
      cleanup_inactive_sessions_sweep
        [("old", freshSession "old" 0), ("new", freshSession "new" 999)] 1000 ∧
    ("new", freshSession "new" 999) ∈
      cleanup_inactive_sessions_sweep
        [("old", freshSession "old" 0), ("new", freshSession "new" 999)] 1000 :=
  ⟨(claim_C8 _ 1000).1 _ (by simp) (by norm_num [session_timeout, freshSession]),
   (claim_C8 _ 1000).2.1 _ (by simp) (by norm_num [session_timeout, freshSession])⟩

end ImperfectBreath
